import Mathlib



/-!
Shallow embedding of the `terraform_modules_interface` package
(`terraform_module_parameter.py`, `terraform_module_resources.py`,
`terraform_remote_module_variables.py`).

Python dynamic values are embedded as the inductive `PyVal`; Python `dict`s
are embedded as insertion-ordered association lists (`List (κ × α)`) with
Python `dict` update semantics (updating an existing key keeps its position,
a new key is appended).  Fallible Python code (functions that can raise)
returns `Except String α`.  String routines from the Python standard library
(`str.strip`, `str.split`, `str.replace`, `re.findall`, ...) are re-modelled
on `List Char` so that everything is executable and kernel-reducible.

External collaborator helpers (`gitops_utils.is_nothing`, `strtobool`,
`tssplit`, `json.loads`) are not part of this repository; they are modelled
here faithfully to their documented behaviour on the value shapes this
code feeds them, with a comment at each definition.
-/

/-- A Python runtime value, restricted to the JSON-ish shapes this code
manipulates (`None`, `bool`, `int`, `str`, `list`).  `bool` and `int` are
separate constructors; the source's `isinstance(..., bool)` test runs before
the `isinstance(..., int)` test, so the Python `bool <: int` subtyping never
shows through. -/
inductive PyVal where
  | none : PyVal
  | bool (b : Bool) : PyVal
  | int (n : Int) : PyVal
  | str (s : String) : PyVal
  | list (xs : List PyVal) : PyVal

/-- Python truthiness (`bool(v)`) for the embedded values. -/
def pyTruthy : PyVal → Bool
  | PyVal.none => false
  | PyVal.bool b => b
  | PyVal.int n => n ≠ 0
  | PyVal.str s => s ≠ ""
  | PyVal.list xs => ¬ xs.isEmpty

/-- Rendering of a `PyVal` as a Python `str`.  Used only where the source
interpolates a directive value into a string; directive values there are
strings in every documented use, so the non-`str` branches are a simplified
stand-in (real code would raise `TypeError` when concatenating them). -/
def pyStr : PyVal → String
  | PyVal.none => "None"
  | PyVal.bool true => "True"
  | PyVal.bool false => "False"
  | PyVal.int n => toString n
  | PyVal.str s => s
  | PyVal.list _ => "[...]"

/-- Modelled external helper: `gitops_utils.utils.is_nothing` on one value —
true for `None`, whitespace-only strings and empty collections. -/
def is_nothing_py : PyVal → Bool
  | PyVal.none => true
  | PyVal.str s => (s.data.dropWhile Char.isWhitespace).isEmpty
  | PyVal.list xs => xs.isEmpty
  | PyVal.bool _ => false
  | PyVal.int _ => false

/-- The `is_nothing` applied to an `Optional[str]` argument. -/
def is_nothing_strOpt : Option String → Bool
  | Option.none => true
  | some s => is_nothing_py (PyVal.str s)

/-- The `is_nothing` applied to an optional embedded value. -/
def is_nothing_pyOpt : Option PyVal → Bool
  | Option.none => true
  | some v => is_nothing_py v

/-- Modelled external helper: `gitops_utils.utils.strtobool` — converts a
truthy flag value to `Bool` (`True`/`"true"`/`"yes"`/`"1"`/... map to true,
everything else to false). -/
def strtobool (v : PyVal) : Bool :=
  match v with
  | PyVal.bool b => b
  | PyVal.int n => n ≠ 0
  | PyVal.str s =>
    let l := String.mk (s.data.map Char.toLower)
    l = "true" ∨ l = "yes" ∨ l = "y" ∨ l = "t" ∨ l = "1" ∨ l = "on"
  | _ => false

/-! ## Ordered association lists with Python `dict` semantics -/

/-- Lookup in an association list (`d[k]` / `d.get(k)`). -/
def kvGet? {κ α : Type} [DecidableEq κ] (d : List (κ × α)) (k : κ) : Option α :=
  match d with
  | [] => Option.none
  | (k', v) :: t => if k' = k then some v else kvGet? t k

/-- The `d.get(k, dflt)`. -/
def kvGetD {κ α : Type} [DecidableEq κ] (d : List (κ × α)) (k : κ) (dflt : α) : α :=
  (kvGet? d k).getD dflt

/-- Python `d[k] = v`: replace in place if the key exists, append otherwise. -/
def kvInsert {κ α : Type} [DecidableEq κ] (d : List (κ × α)) (k : κ) (v : α) :
    List (κ × α) :=
  match d with
  | [] => [(k, v)]
  | (k', v') :: t => if k' = k then (k, v) :: t else (k', v') :: kvInsert t k v

/-- Python `d.pop(k, None)`, the removal part. -/
def kvRemove {κ α : Type} [DecidableEq κ] (d : List (κ × α)) (k : κ) :
    List (κ × α) :=
  d.filter (fun kv => kv.1 ≠ k)

/-- Python `d1 | d2`: entries of `d2` written over `d1` one at a time. -/
def kvUnion {κ α : Type} [DecidableEq κ] (d1 d2 : List (κ × α)) : List (κ × α) :=
  d2.foldl (fun acc kv => kvInsert acc kv.1 kv.2) d1

/-! ## Python string routines remodelled on `List Char` -/

/-- Python `str.strip()` (no argument): drop leading and trailing whitespace. -/
def pyStrip (cs : List Char) : List Char :=
  ((cs.dropWhile Char.isWhitespace).reverse.dropWhile Char.isWhitespace).reverse

/-- Python `str.strip(c)` for a single strip character. -/
def pyStripChar (c : Char) (cs : List Char) : List Char :=
  ((cs.dropWhile (fun x => x = c)).reverse.dropWhile (fun x => x = c)).reverse

/-- Python `str.lstrip(c)` for a single strip character. -/
def pyLStripChar (c : Char) (cs : List Char) : List Char :=
  cs.dropWhile (fun x => x = c)

/-- Python `str.split(sep)` for a one-character separator: split at every
occurrence, producing `count + 1` parts. -/
def splitOnChar (c : Char) : List Char → List (List Char)
  | [] => [[]]
  | x :: xs =>
    let r := splitOnChar c xs
    if x = c then [] :: r
    else
      match r with
      | [] => [[x]]
      | h :: t => (x :: h) :: t

/-- Python `str.startswith(pre)`. -/
def pyStartsWith (pre s : String) : Bool :=
  pre.data.isPrefixOf s.data

/-- Python `str.endswith(suf)`. -/
def pyEndsWith (suf s : String) : Bool :=
  suf.data.isSuffixOf s.data

/-- Python `str.removeprefix(pre)`. -/
def pyRemovePrefix (pre s : String) : String :=
  if pyStartsWith pre s then String.mk (s.data.drop pre.data.length) else s

/-- Python `str.removesuffix(suf)`. -/
def pyRemoveSuffix (suf s : String) : String :=
  if pyEndsWith suf s then String.mk (s.data.take (s.data.length - suf.data.length))
  else s

/-- Substring test (Python `pat in s`). -/
def pyContains (s pat : String) : Bool :=
  go s.data
where
  go : List Char → Bool
    | [] => pat.data.isPrefixOf []
    | c :: t => pat.data.isPrefixOf (c :: t) || go t

/-- Python `str.replace(pat, rep)` with a non-empty pattern: replace every
non-overlapping occurrence, scanning left to right.  The fuel argument (the
input length at the top call) only makes the recursion structural: each step
consumes at least one character. -/
def replaceChars (fuel : Nat) (cs pat rep : List Char) : List Char :=
  match fuel with
  | 0 => cs
  | fuel + 1 =>
    match cs with
    | [] => []
    | c :: rest =>
      if pat ≠ [] ∧ pat.isPrefixOf (c :: rest) then
        rep ++ replaceChars fuel ((c :: rest).drop pat.length) pat rep
      else
        c :: replaceChars fuel rest pat rep

/-- Python `str.replace` lifted to `String`. -/
def pyReplace (s pat rep : String) : String :=
  String.mk (replaceChars s.data.length s.data pat.data rep.data)

/-- The `delim.join(chunks)`. -/
def pyJoin (d : String) : List String → String
  | [] => ""
  | [x] => x
  | x :: xs => x ++ d ++ pyJoin d xs

/-- Python `str.lower()` (ASCII model). -/
def pyLower (s : String) : String :=
  String.mk (s.data.map Char.toLower)

/-- Python `str.splitlines()` filtered to the newline separator actually used
by the docstrings this code consumes. -/
def pySplitLines (s : String) : List String :=
  (splitOnChar '\n' s.data).map String.mk

/-! ## `json.loads` fallback model

`get_json_export_for_chunk` tries `json.loads` on the (already
quote-stripped) chunk value and falls back to the raw string.  After
stripping, only bare literals can still parse; this model accepts the JSON
literals `true`/`false`/`null` and integer numerals, and rejects everything
else (floats and containers are not exercised by the directive language). -/

/-- JSON integer literal (optional minus sign, no leading zeros). -/
def parseIntLit (cs : List Char) : Option Int :=
  let p := match cs with
    | '-' :: t => (true, t)
    | _ => (false, cs)
  let ds := p.2
  if ds.isEmpty then Option.none
  else if ¬ ds.all Char.isDigit then Option.none
  else if ds.length > 1 ∧ ds.headD '0' = '0' then Option.none
  else
    let n : Nat := ds.foldl (fun a c => a * 10 + (c.toNat - '0'.toNat)) 0
    some (if p.1 then -(n : Int) else (n : Int))

/-- Modelled external call: `json.loads` restricted to bare literals. -/
def json_loads (s : String) : Option PyVal :=
  if s = "true" then some (PyVal.bool true)
  else if s = "false" then some (PyVal.bool false)
  else if s = "null" then some PyVal.none
  else (parseIntLit s.data).map PyVal.int

/-! ## `get_json_export_for_chunk` (terraform_module_resources.py, lines 19-31) -/

/-- The `get_json_export_for_chunk(chunk)`: strip the chunk, strip surrounding
quotes, split on `":"` into exactly a key and a value (any other number of
parts raises), strip each side again and JSON-decode the value with a
raw-string fallback. -/
def get_json_export_for_chunk (chunk : String) : Except String (String × PyVal) :=
  let stripped := pyStripChar '"' (pyStrip chunk.data)
  match splitOnChar ':' stripped with
  | [k0, v0] =>
    let k := String.mk (pyStripChar '"' (pyStrip k0))
    let v := String.mk (pyStripChar '"' (pyStrip v0))
    match json_loads v with
    | some j => Except.ok (k, j)
    | Option.none => Except.ok (k, PyVal.str v)
  | _ => Except.error ("Failed to get chunks for: " ++ chunk)

/-- Modelled external call: `tssplit(p, quote=dquote, quote_keep=True,
delimiter=comma)` — split on commas that are not inside double quotes,
keeping the quote characters. -/
def tssplitGo : List Char → Bool → List Char → List (List Char)
  | [], _, cur => [cur.reverse]
  | c :: rest, inq, cur =>
    if c = '"' then tssplitGo rest (!inq) (c :: cur)
    else if c = ',' ∧ inq = false then cur.reverse :: tssplitGo rest inq []
    else tssplitGo rest inq (c :: cur)

/-- The `split_param` from `get_module_config`. -/
def split_param (s : String) : List String :=
  (tssplitGo s.data false []).map String.mk

/-- Chunk-parse a whole directive payload; the first bad chunk raises. -/
def parseChunks (chunks : List String) : Except String (List (String × PyVal)) :=
  chunks.mapM get_json_export_for_chunk

/-! ## The Parameter model (terraform_module_parameter.py) -/

/-- The `TerraformModuleParameter`: one Terraform input variable declaration.
`description` is stored raw (any value), `type`/`trigger` are kept as
optional strings — the documented and exercised shapes. -/
structure TerraformModuleParameter where
  name : String
  json_encode : Bool
  base64_encode : Bool
  default : PyVal
  required : Bool
  description : Option PyVal
  sensitive : Bool
  type : Option String
  trigger : Option String

/-- The `isinstance(v, str)`. -/
def isStrVal : PyVal → Bool
  | PyVal.str _ => true
  | _ => false

/-- The `isinstance(v, bool)`. -/
def isBoolVal : PyVal → Bool
  | PyVal.bool _ => true
  | _ => false

/-- The `isinstance(v, int)` for a non-`bool` value (the `bool` branch of
`__post_init__` is tested first, so this is only reached for real ints). -/
def isIntVal : PyVal → Bool
  | PyVal.int _ => true
  | _ => false

/-- The `isinstance(v, list)`. -/
def isListVal : PyVal → Bool
  | PyVal.list _ => true
  | _ => false

/-- The `__post_init__`: leave an explicit `type` alone, otherwise infer it once
from the default value and the parameter name. -/
def post_init (p : TerraformModuleParameter) : TerraformModuleParameter :=
  match p.type with
  | some _ => p
  | Option.none =>
    { p with type := some (
        if isStrVal p.default ∨ pyEndsWith "id" p.name then "string"
        else if isBoolVal p.default then "bool"
        else if isIntVal p.default then "number"
        else "any") }

/-- The `get_variable()`: the Terraform variable block for one parameter. -/
def get_variable (p : TerraformModuleParameter) : List (String × PyVal) :=
  let v : List (String × PyVal) :=
    [("type", match p.type with | some t => PyVal.str t | Option.none => PyVal.none)]
  let v := if ¬ p.required then kvInsert v "default" p.default else v
  let v := match p.description with
    | some d => kvInsert v "description" d
    | Option.none => v
  let v := if p.sensitive then kvInsert v "sensitive" (PyVal.bool true) else v
  v

/-- The try/nonsensitive wrapper the spec describes for trigger expressions. -/
def wrapTry (e : String) : String :=
  "$\x7btry(nonsensitive(" ++ e ++ "), " ++ e ++ ")\x7d"

/-- The encoded base expression of `get_trigger` (the local `trigger`
variable right before the final wrapping). -/
def encoded_expr (p : TerraformModuleParameter) (disable_encoding : Bool) : String :=
  let t := "var." ++ p.name
  let t := if p.json_encode ∧ ¬ disable_encoding then "jsonencode(" ++ t ++ ")" else t
  let t := if p.base64_encode ∧ ¬ disable_encoding then "base64encode(" ++ t ++ ")" else t
  t

/-- The `get_trigger(disable_encoding)`: an explicit `trigger` override is
returned verbatim; otherwise `var.<name>` is optionally wrapped in
`jsonencode`/`base64encode` and always wrapped in try/nonsensitive. -/
def get_trigger (p : TerraformModuleParameter) (disable_encoding : Bool) : String :=
  match p.trigger with
  | some t => t
  | Option.none =>
    let t := "var." ++ p.name
    let t := if p.json_encode ∧ ¬ disable_encoding then "jsonencode(" ++ t ++ ")" else t
    let t := if p.base64_encode ∧ ¬ disable_encoding then "base64encode(" ++ t ++ ")" else t
    "$\x7btry(nonsensitive(" ++ t ++ "), " ++ t ++ ")\x7d"

/-! ## `decode_type_param` (terraform_remote_module_variables.py, lines 356-396) -/

/-- The `variable_type` argument of `decode_type_param`
(`Optional[str | List[str]]`). -/
inductive VarTypeArg where
  | none : VarTypeArg
  | str (s : String) : VarTypeArg
  | list (xs : List String) : VarTypeArg

/-- The `is_nothing` on the `variable_type` argument. -/
def is_nothing_varType : VarTypeArg → Bool
  | VarTypeArg.none => true
  | VarTypeArg.str s => is_nothing_py (PyVal.str s)
  | VarTypeArg.list xs => xs.isEmpty

/-- One lazy match of `(?<=THE-OPEN-BRACE).+?(?=THE-CLOSE-BRACE)` starting at
the current position: take at least one non-newline character and stop as
soon as the next character is a closing brace.  Returns the match and the
rest of the input starting at that closing brace. -/
def scanMatch : List Char → Option (List Char × List Char)
  | [] => Option.none
  | c :: rest =>
    if c = '\n' then Option.none
    else
      match rest with
      | [] => Option.none
      | d :: _ =>
        if d = '\x7d' then some ([c], rest)
        else
          match scanMatch rest with
          | some (m, r) => some (c :: m, r)
          | Option.none => Option.none

/-- All non-overlapping matches of the lazy between-braces pattern
(`re.findall` scanning left to right), with `prev` the character just before
the current position.  The fuel argument (the input length at the top call)
only makes the recursion structural; by `scanMatch_length` every step
consumes at least one character. -/
def findallAux (fuel : Nat) (prev : Option Char) (cs : List Char) :
    List (List Char) :=
  match fuel with
  | 0 => []
  | fuel + 1 =>
    match cs with
    | [] => []
    | c :: rest =>
      if prev = some '\x7b' then
        match scanMatch (c :: rest) with
        | some (m, r) => m :: findallAux fuel (some (m.getLastD c)) r
        | Option.none => findallAux fuel (some c) rest
      else findallAux fuel (some c) rest

/-- The `re.findall(lazy between-braces pattern, s)`. -/
def findallBraces (s : String) : List String :=
  (findallAux s.data.length Option.none s.data).map String.mk

/-- The `decode_type_param(variable_type, key)`: extract the innermost brace
content, rewrite `set` to `list`, degrade `object` types to `any`, return
parenthesis-free types as-is, and raise on an opening parenthesis that is
never closed. -/
def decode_type_param (variable_type : VarTypeArg) (key : String) :
    Except String String :=
  if is_nothing_varType variable_type then
    Except.error ("No type set for key " ++ key)
  else
    let vt := match variable_type with
      | VarTypeArg.str s => s
      | VarTypeArg.list xs => xs.headD ""
      | VarTypeArg.none => ""
    match findallBraces vt with
    | [] => Except.error ("No type found parsing " ++ vt ++ " for key " ++ key)
    | p :: _ =>
      let first_part := pyReplace p "set" "list"
      if pyContains first_part "object" then Except.ok "any"
      else if ¬ pyContains first_part "(" then Except.ok first_part
      else if ¬ pyContains first_part ")" then Except.error (first_part ++ ")")
      else Except.ok first_part

/-! ## `compact_default_for_variable_type` (lines 398-422) -/

/-- The list-type test used by `compact_default_for_variable_type`. -/
def isListTypeStr (t : String) : Bool :=
  pyStartsWith "list(" t ∨ pyStartsWith "optional(list(" t

/-- The `compact_default_for_variable_type(variable_type, default, key)`: wrap a
non-list default for a list type; for a non-list type unwrap a list default
to its first element (`None` when the list is empty); otherwise pass the
default through. -/
def compact_default_for_variable_type (variable_type : String) (default : PyVal)
    (_key : String) : PyVal :=
  if isListTypeStr variable_type ∧ ¬ isListVal default then
    PyVal.list [default]
  else if ¬ isListTypeStr variable_type ∧ isListVal default then
    match default with
    | PyVal.list [] => PyVal.none
    | PyVal.list (x :: _) => x
    | _ => default
  else default

/-! ## The descriptor state (`TerraformModuleResources.__init__` fields) -/

/-- One accumulated `module_params` entry inside `get_module_config`: the
loop appends both the constructed parameter object and (for plain
parameters) the raw chunk dictionary. -/
inductive ParamEntry where
  | param (p : TerraformModuleParameter) : ParamEntry
  | dict (d : List (String × PyVal)) : ParamEntry

/-- Modelled from the spec: the `defaults` module of this repository is not
under `src/`; the spec only names its table entries
(`TERRAFORM_MODULES_DIR` and friends), so the four shared default strings
are passed in as explicit configuration. -/
structure DefaultsCfg where
  terraform_modules_dir : String
  terraform_modules_class : String
  terraform_modules_name_delim : String
  terraform_modules_binary_name : String

/-- The mutable fields of `TerraformModuleResources`, after `__init__`'s
default resolution.  `extra_outputs`/`sub_keys`/`required_providers` are
keyed by the popped directive value rendered as a string (documented use
passes strings there). -/
structure MRState where
  modules_dir : String
  modules_class : String
  name_delim : String
  binary_name : String
  module_name : String
  module_type : Option String
  docstring : Option String
  descriptor : Option String
  module_parameters : List TerraformModuleParameter
  generator_parameters : List (String × PyVal)
  extra_outputs : List (String × List (String × PyVal))
  sub_keys : List (String × List (String × PyVal))
  required_providers : List (String × List (String × PyVal))
  copy_variables_to : List (List (String × PyVal))
  module_parameter_names : List String
  foreach_modules : List (String × String)
  foreach_iterator : Option TerraformModuleParameter
  foreach_from_file_path : Option TerraformModuleParameter
  foreach_keys : List String
  foreach_values : List String
  foreach_only : List String
  foreach_forbidden : List String
  generation_forbidden : Bool
  call : String
  foreach_bind_log_file_name_to_key : Bool

/-! ## Parameter construction (`TerraformModuleParameter(**expanded_param)`) -/

/-- The keyword arguments the dataclass accepts. -/
def paramFieldNames : List String :=
  ["name", "json_encode", "base64_encode", "default", "required",
   "description", "sensitive", "type", "trigger"]

/-- An optional string-valued keyword argument (`type` or `trigger`): an
explicit `None` is the same as leaving it out. -/
def strOptField (d : List (String × PyVal)) (k : String) (msg : String) :
    Except String (Option String) :=
  match kvGet? d k with
  | some (PyVal.str s) => Except.ok (some s)
  | some PyVal.none => Except.ok Option.none
  | Option.none => Except.ok Option.none
  | some _ => Except.error msg

/-- Build a `TerraformModuleParameter` from a chunk dictionary, mirroring
dataclass keyword construction plus `__post_init__`.  An unknown keyword or
a missing `name` raises (`TypeError` in Python).  Flag-like fields are
stored through their truthiness, which is how the source consumes them;
`name`/`type`/`trigger` values other than strings (or `None`) are rejected
here, where Python would instead fail later when the value is used as a
string. -/
def mkParamFromDict (d : List (String × PyVal)) :
    Except String TerraformModuleParameter :=
  if d.any (fun kv => ¬ kv.1 ∈ paramFieldNames) then
    Except.error "TypeError: unexpected keyword argument"
  else
    match kvGet? d "name" with
    | some (PyVal.str n) => do
      let ty ← strOptField d "type" "type value is not a string"
      let tr ← strOptField d "trigger" "trigger value is not a string"
      Except.ok (post_init
        { name := n
          json_encode := pyTruthy (kvGetD d "json_encode" (PyVal.bool false))
          base64_encode := pyTruthy (kvGetD d "base64_encode" (PyVal.bool false))
          default := kvGetD d "default" PyVal.none
          required := pyTruthy (kvGetD d "required" (PyVal.bool true))
          description := match kvGet? d "description" with
            | some PyVal.none => Option.none
            | some v => some v
            | Option.none => Option.none
          sensitive := pyTruthy (kvGetD d "sensitive" (PyVal.bool false))
          type := ty
          trigger := tr })
    | some _ => Except.error "name value is not a string"
    | Option.none => Except.error "TypeError: missing required argument: name"

/-! ## Module class / name / path (terraform_module_resources.py, lines 659-708) -/

/-- The `module_class[:1].isalnum()`: whether the first character exists and is
alphanumeric. -/
def firstCharAlnum (s : String) : Bool :=
  match s.data with
  | [] => false
  | c :: _ => Char.isAlphanum c

/-- The `get_module_class(module_class)`: an absent/empty argument resolves to
the `module_class` generator parameter, else the configured shared class; a
present argument whose first character is not alphanumeric and that contains
no alphanumeric character at all resolves to `None`; otherwise the argument
is returned unchanged. -/
def get_module_class (st : MRState) (module_class : Option PyVal) :
    Except String (Option PyVal) :=
  if is_nothing_pyOpt module_class then
    Except.ok (some (kvGetD st.generator_parameters "module_class"
      (PyVal.str st.modules_class)))
  else
    match module_class with
    | some (PyVal.str mc) =>
      if ¬ firstCharAlnum mc then
        if ¬ mc.data.any Char.isAlphanum then Except.ok Option.none
        else Except.ok (some (PyVal.str mc))
      else Except.ok (some (PyVal.str mc))
    | some _ => Except.error "TypeError: module_class is not sliceable"
    | Option.none => Except.ok Option.none

/-- The `get_module_name(module_class, module_name)`: resolve the class, drop it
when it is nothing or `no_class_in_module_name` is set, join class and name
with the configured delimiter and replace underscores with that delimiter. -/
def get_module_name (st : MRState) (module_class : Option PyVal)
    (module_name : Option String) : Except String String := do
  let mc ← get_module_class st module_class
  let chunks ←
    if is_nothing_pyOpt mc ∨
        strtobool (kvGetD st.generator_parameters "no_class_in_module_name"
          (PyVal.bool false)) then
      Except.ok ([] : List String)
    else
      match mc with
      | some (PyVal.str s) => Except.ok [s]
      | some _ => Except.error "TypeError: sequence item is not a str"
      | Option.none => Except.ok []
  let chunks := chunks ++
    [if is_nothing_strOpt module_name then st.module_name else module_name.getD ""]
  Except.ok (pyReplace (pyJoin st.name_delim chunks) "_" st.name_delim)

/-- The `get_module_path(modules_dir, module_class, module_name,
modules_file_name)`: nest under class/name/file, collapsing the class
segment when it equals the derived name; joining a `None` class raises
(Python `Path.joinpath(None)` is a `TypeError`). -/
def get_module_path (st : MRState) (modules_dir : Option String)
    (module_class : Option PyVal) (module_name : Option String)
    (modules_file_name : String) : Except String String := do
  let dir := if is_nothing_strOpt modules_dir then st.modules_dir
             else modules_dir.getD ""
  let mc ← get_module_class st module_class
  let mn ← get_module_name st mc module_name
  if (match mc with | some (PyVal.str s) => decide (s = mn) | _ => false) then
    Except.ok (dir ++ "/" ++ mn ++ "/" ++ modules_file_name)
  else
    match mc with
    | some (PyVal.str c) =>
      Except.ok (dir ++ "/" ++ c ++ "/" ++ mn ++ "/" ++ modules_file_name)
    | _ => Except.error "TypeError: cannot join a non-string path segment"

/-! ## Directive handling inside `get_module_config` (lines 119-304) -/

/-- The `generator=` directive: accumulate chunk pairs into
`generator_parameters`, coercing `plaintext_output` through `strtobool`. -/
def applyGenerator (st : MRState) (payload : String) : Except String MRState := do
  let kvs ← parseChunks (split_param payload)
  let gp := kvs.foldl (fun gp kv =>
    if kv.1 = "plaintext_output" then
      kvInsert gp kv.1 (PyVal.bool (strtobool kv.2))
    else kvInsert gp kv.1 kv.2) st.generator_parameters
  Except.ok { st with generator_parameters := gp }

/-- The `extra_output=` directive: build the chunk dictionary, pop its
`key` entry (raising when missing or nothing) and file the rest under it. -/
def applyExtraOutput (st : MRState) (payload : String) : Except String MRState := do
  let kvs ← parseChunks (split_param payload)
  match kvGet? (kvs.foldl (fun m kv => kvInsert m kv.1 kv.2) []) "key" with
  | some v =>
    if is_nothing_py v then
      Except.error "Extra output from Terraform module is missing key"
    else
      Except.ok { st with extra_outputs := (kvInsert st.extra_outputs (pyStr v)
        (kvRemove (kvs.foldl (fun m kv => kvInsert m kv.1 kv.2) []) "key")) }
  | Option.none => Except.error "Extra output from Terraform module is missing key"

/-- The `sub_key=` directive (same pop-the-`key` shape as `extra_output=`). -/
def applySubKey (st : MRState) (payload : String) : Except String MRState := do
  let kvs ← parseChunks (split_param payload)
  match kvGet? (kvs.foldl (fun m kv => kvInsert m kv.1 kv.2) []) "key" with
  | some v =>
    if is_nothing_py v then
      Except.error "Sub key from Terraform module is missing key"
    else
      Except.ok { st with sub_keys := (kvInsert st.sub_keys (pyStr v)
        (kvRemove (kvs.foldl (fun m kv => kvInsert m kv.1 kv.2) []) "key")) }
  | Option.none => Except.error "Sub key from Terraform module is missing key"

/-- The `required_provider=` directive: pops `name` instead of `key`. -/
def applyRequiredProvider (st : MRState) (payload : String) :
    Except String MRState := do
  let kvs ← parseChunks (split_param payload)
  match kvGet? (kvs.foldl (fun m kv => kvInsert m kv.1 kv.2) []) "name" with
  | some v =>
    if is_nothing_py v then
      Except.error "Required provider from Terraform module is missing provider name"
    else
      Except.ok { st with required_providers := (kvInsert st.required_providers
        (pyStr v)
        (kvRemove (kvs.foldl (fun m kv => kvInsert m kv.1 kv.2) []) "name")) }
  | Option.none =>
    Except.error "Required provider from Terraform module is missing provider name"

/-- The `copy_variables_to=` directive: append the chunk dictionary. -/
def applyCopyVariablesTo (st : MRState) (payload : String) :
    Except String MRState := do
  let kvs ← parseChunks (split_param payload)
  Except.ok { st with copy_variables_to := (st.copy_variables_to ++
    [kvs.foldl (fun m kv => kvInsert m kv.1 kv.2) []]) }

/-- The `foreach=` directive: read the optional `module_name`,
`module_call` and `bind_log_file_name_to_key` chunks, derive the target
path and call name and record them.  `module_name`/`module_call` values are
expected to be strings (a non-string would make the Python path join fail). -/
def applyForeach (st : MRState) (payload : String) : Except String MRState := do
  let kvs ← parseChunks (split_param payload)
  let acc0 : String × String × Bool := (st.module_name ++ "s", st.module_name, false)
  let acc ← kvs.foldlM (fun (acc : String × String × Bool) kv =>
    match kv.1 with
    | "module_name" =>
      match kv.2 with
      | PyVal.str s => Except.ok (s, acc.2.1, acc.2.2)
      | _ => Except.error "TypeError: foreach module_name is not a string"
    | "module_call" =>
      match kv.2 with
      | PyVal.str s => Except.ok (acc.1, s, acc.2.2)
      | _ => Except.error "TypeError: foreach module_call is not a string"
    | "bind_log_file_name_to_key" => Except.ok (acc.1, acc.2.1, strtobool kv.2)
    | _ => Except.ok acc) acc0
  let path ← get_module_path st Option.none Option.none (some acc.1) "main.tf.json"
  let callName ← get_module_name st Option.none (some acc.2.1)
  Except.ok { st with
    foreach_modules := kvInsert st.foreach_modules path callName
    foreach_bind_log_file_name_to_key := acc.2.2 }

/-- The expanded parameter dictionary of a plain parameter line: every chunk
pair except the six foreach control keys, in order, later keys overwriting. -/
def expandedOf (kvs : List (String × PyVal)) : List (String × PyVal) :=
  kvs.foldl (fun m kv =>
    match kv.1 with
    | "foreach_iterator" | "foreach_from_file_path" | "foreach_key"
    | "foreach_value" | "foreach_only" | "foreach_forbidden" => m
    | _ => kvInsert m kv.1 kv.2) []

/-- The state after a plain parameter line has recorded its foreach flags
(the block of lines 282-292, before the `foreach_only`/`foreach_forbidden`
branches). -/
def paramLineState (st : MRState) (kvs : List (String × PyVal))
    (p : TerraformModuleParameter) : MRState :=
  { st with
    foreach_iterator :=
      if kvs.any (fun kv => kv.1 = "foreach_iterator") then some p
      else st.foreach_iterator
    foreach_from_file_path :=
      if kvs.any (fun kv => kv.1 = "foreach_from_file_path") then some p
      else st.foreach_from_file_path
    foreach_keys :=
      if kvs.any (fun kv => kv.1 = "foreach_key") then st.foreach_keys ++ [p.name]
      else st.foreach_keys
    foreach_values :=
      if kvs.any (fun kv => kv.1 = "foreach_value") then st.foreach_values ++ [p.name]
      else st.foreach_values }

/-- A plain parameter line (lines 242-302): parse chunks, extract the
foreach control flags, construct the parameter, record it (the loop appends
the constructed object, and — unless the parameter is `foreach_only` or
`foreach_forbidden`, whose branches `continue` — also the raw dictionary). -/
def applyParamLine (st : MRState) (mp : List ParamEntry) (payload : String) :
    Except String (MRState × List ParamEntry) := do
  let kvs ← parseChunks (split_param payload)
  let p ← (mkParamFromDict (expandedOf kvs)).mapError
    (fun _ => "Failed to generate module parameter for expanded parameter")
  if kvs.any (fun kv => kv.1 = "foreach_only") then
    Except.ok ({ paramLineState st kvs p with
      foreach_only := (paramLineState st kvs p).foreach_only ++ [p.name] },
      mp ++ [ParamEntry.param p])
  else if kvs.any (fun kv => kv.1 = "foreach_forbidden") then
    Except.ok ({ paramLineState st kvs p with
      foreach_forbidden := (paramLineState st kvs p).foreach_forbidden ++ [p.name] },
      mp ++ [ParamEntry.param p])
  else
    Except.ok (paramLineState st kvs p,
      mp ++ [ParamEntry.param p, ParamEntry.dict (expandedOf kvs)])

/-- One docstring line of `get_module_config`'s loop: strip it, skip blanks,
handle comments (a `noterraform` comment forbids generation), dispatch the
six directives, and otherwise treat the line as a parameter declaration.
Any failure inside the body is re-raised naming the stripped line. -/
def processParamLine (st : MRState) (mp : List ParamEntry) (line : String) :
    Except String (MRState × List ParamEntry) :=
  let param := String.mk (pyStrip line.data)
  if is_nothing_py (PyVal.str param) then Except.ok (st, mp)
  else if pyStartsWith "#" param then
    let comment := pyLower (String.mk (pyStrip (pyLStripChar '#' param.data)))
    if comment = "noterraform" then
      Except.ok ({ st with generation_forbidden := true }, mp)
    else Except.ok (st, mp)
  else if pyStartsWith "generator=" param then
    ((applyGenerator st (pyRemovePrefix "generator=" param)).map
      (fun st' => (st', mp))).mapError
      (fun _ => "Failed to parse docstring param: " ++ param)
  else if pyStartsWith "extra_output=" param then
    ((applyExtraOutput st (pyRemovePrefix "extra_output=" param)).map
      (fun st' => (st', mp))).mapError
      (fun _ => "Failed to parse docstring param: " ++ param)
  else if pyStartsWith "sub_key=" param then
    ((applySubKey st (pyRemovePrefix "sub_key=" param)).map
      (fun st' => (st', mp))).mapError
      (fun _ => "Failed to parse docstring param: " ++ param)
  else if pyStartsWith "required_provider=" param then
    ((applyRequiredProvider st (pyRemovePrefix "required_provider=" param)).map
      (fun st' => (st', mp))).mapError
      (fun _ => "Failed to parse docstring param: " ++ param)
  else if pyStartsWith "copy_variables_to=" param then
    ((applyCopyVariablesTo st (pyRemovePrefix "copy_variables_to=" param)).map
      (fun st' => (st', mp))).mapError
      (fun _ => "Failed to parse docstring param: " ++ param)
  else if pyStartsWith "foreach=" param then
    ((applyForeach st (pyRemovePrefix "foreach=" param)).map
      (fun st' => (st', mp))).mapError
      (fun _ => "Failed to parse docstring param: " ++ param)
  else
    (applyParamLine st mp param).mapError
      (fun _ => "Failed to parse docstring param: " ++ param)

/-- The whole line loop, threading state and the accumulated
`module_params`. -/
def processParamLines (st : MRState) (mp : List ParamEntry) :
    List String → Except String (MRState × List ParamEntry)
  | [] => Except.ok (st, mp)
  | l :: ls => do
    let r ← processParamLine st mp l
    processParamLines r.1 r.2 ls

/-- The `set_module_params(module_params)`: append each entry to
`module_parameters` (re-constructing raw dictionaries through the dataclass)
and record its name. -/
def set_module_params (st : MRState) (mps : Option (List ParamEntry)) :
    Except String MRState :=
  match mps with
  | Option.none => Except.ok st
  | some l =>
    l.foldlM (fun st e => do
      let p ← match e with
        | ParamEntry.param p => Except.ok p
        | ParamEntry.dict d => mkParamFromDict d
      let names := if p.name ∈ st.module_parameter_names
        then st.module_parameter_names else st.module_parameter_names ++ [p.name]
      Except.ok { st with
        module_parameters := st.module_parameters ++ [p]
        module_parameter_names := names }) st

/-- The three auto-injected parameters of `set_required_module_params`. -/
def requiredInjectedParams : List TerraformModuleParameter :=
  [post_init
    { name := "checksum", json_encode := false, base64_encode := false
      default := PyVal.str "", required := false
      description := some (PyVal.str
        "Optional checksum to use for triggering resource updates")
      sensitive := false, type := Option.none, trigger := Option.none },
   post_init
    { name := "log_results_dir", json_encode := false, base64_encode := false
      default := PyVal.str "", required := false
      description := some (PyVal.str
        "Optional log results directory to use for aggregating log results")
      sensitive := false, type := Option.none, trigger := Option.none },
   post_init
    { name := "execution_role_arn", json_encode := false, base64_encode := false
      default := PyVal.str "", required := false
      description := some (PyVal.str "Execution role ARN")
      sensitive := false, type := Option.none, trigger := Option.none }]

/-- The `set_required_module_params()`: inject each of the three bookkeeping
parameters unless a parameter of that name was already declared. -/
def set_required_module_params (st : MRState) : MRState :=
  requiredInjectedParams.foldl (fun st p =>
    if p.name ∈ st.module_parameter_names then st
    else { st with
      module_parameters := st.module_parameters ++ [p]
      module_parameter_names := st.module_parameter_names ++ [p.name] }) st

/-- The `get_module_config()`: split the docstring into non-empty lines, take
the first as the descriptor text, process the remaining lines and feed the
accumulated parameter entries through `set_module_params`. -/
def get_module_config (st : MRState) : Except String MRState :=
  match st.docstring with
  | Option.none => Except.ok st
  | some ds =>
    let lines := (pySplitLines ds).filter (fun l => l ≠ "")
    match lines with
    | [] => Except.ok st
    | descr :: rest =>
      let st := { st with descriptor := some descr }
      if rest.isEmpty then Except.ok st
      else do
        let r ← processParamLines st [] rest
        set_module_params r.1 (some r.2)

/-- The `TerraformModuleResources.__init__`: resolve the shared defaults, strip
a trailing delimiter from the class, seed the state, then run
`get_module_config`, `set_module_params` on the constructor argument and
`set_required_module_params`. -/
def initResources (cfg : DefaultsCfg) (module_name : String)
    (docstring : Option String) (module_type : Option String)
    (module_params : Option (List ParamEntry)) (modules_dir : Option String)
    (modules_class : Option String) (modules_name_delim : Option String)
    (modules_binary_name : Option String) : Except String MRState := do
  let dir := if is_nothing_strOpt modules_dir then cfg.terraform_modules_dir
             else modules_dir.getD ""
  let cls := if is_nothing_strOpt modules_class then cfg.terraform_modules_class
             else modules_class.getD ""
  let delim := if is_nothing_strOpt modules_name_delim
               then cfg.terraform_modules_name_delim
               else modules_name_delim.getD ""
  let bin := if is_nothing_strOpt modules_binary_name
             then cfg.terraform_modules_binary_name
             else modules_binary_name.getD ""
  let cls := pyRemoveSuffix delim cls
  let st0 : MRState :=
    { modules_dir := dir, modules_class := cls, name_delim := delim
      binary_name := bin, module_name := module_name
      module_type := module_type, docstring := docstring
      descriptor := Option.none, module_parameters := []
      generator_parameters := [], extra_outputs := [], sub_keys := []
      required_providers := [], copy_variables_to := []
      module_parameter_names := [], foreach_modules := []
      foreach_iterator := Option.none, foreach_from_file_path := Option.none
      foreach_keys := [], foreach_values := [], foreach_only := []
      foreach_forbidden := [], generation_forbidden := false
      call := bin ++ " " ++ module_name
      foreach_bind_log_file_name_to_key := false }
  let st1 ← get_module_config st0
  let st2 ← set_module_params st1 module_params
  Except.ok (set_required_module_params st2)

/-! ## Variable and trigger projection (lines 346-382) -/

/-- The `get_variables(filter_foreach_only, filter_foreach_forbidden)`. -/
def get_variables (st : MRState) (filter_foreach_only : Bool)
    (filter_foreach_forbidden : Bool) : List (String × List (String × PyVal)) :=
  st.module_parameters.foldl (fun acc p =>
    if filter_foreach_only ∧ p.name ∈ st.foreach_only then acc
    else if filter_foreach_forbidden ∧ p.name ∈ st.foreach_forbidden then acc
    else kvInsert acc p.name (get_variable p)) []

/-- The `get_triggers(disable_encoding, filter_foreach_only,
filter_foreach_forbidden)`, including the `always` timestamp trigger. -/
def get_triggers (st : MRState) (disable_encoding : Bool)
    (filter_foreach_only : Bool) (filter_foreach_forbidden : Bool) :
    List (String × String) :=
  let triggers := st.module_parameters.foldl (fun acc p =>
    if filter_foreach_only ∧ p.name ∈ st.foreach_only then acc
    else if filter_foreach_forbidden ∧ p.name ∈ st.foreach_forbidden then acc
    else kvInsert acc p.name (get_trigger p disable_encoding)) []
  if strtobool (kvGetD st.generator_parameters "always" (PyVal.bool false)) then
    kvInsert triggers "always" "$\x7btimestamp()\x7d"
  else triggers

/-! ## `get_foreach` (lines 510-613) -/

/-- The trigger map a foreach module body receives: the module's triggers
with encoding disabled and forbidden parameters filtered, minus `always`,
plus the optional log-file binding and the `each.key`/`each.value`
rebindings. -/
def get_foreach_triggers (st : MRState) : List (String × String) :=
  let t := (get_triggers st true true true).filter (fun kv => kv.1 ≠ "always")
  let t := if st.foreach_bind_log_file_name_to_key then
      kvInsert t "log_file_name" "$\x7breplace(each.key, \" \", \"_\")\x7d.log"
    else t
  let t := st.foreach_keys.foldl (fun acc n => kvInsert acc n "$\x7beach.key\x7d") t
  st.foreach_values.foldl (fun acc n => kvInsert acc n "$\x7beach.value\x7d") t

/-- One generated foreach module document (`js` in the source): the
`variable` section, the `module.default` block and the optional aggregated
`output` block. -/
structure ForeachDoc where
  variable_blocks : List (String × List (String × PyVal))
  module_default : List (String × String)
  output : Option (String × List (String × PyVal))

/-- The iterator variables and iterator expressions declared by the foreach
parameters (`variables` and `module_iterators` before the merge). -/
def foreachIterSeed (st : MRState) :
    List (String × List (String × PyVal)) × List String :=
  let acc : List (String × List (String × PyVal)) × List String := ([], [])
  let acc := match st.foreach_iterator with
    | some fi =>
      (kvInsert acc.1 fi.name (get_variable fi),
       acc.2 ++ ["try(nonsensitive(var." ++ fi.name ++ "), var." ++ fi.name ++ ")"])
    | Option.none => acc
  match st.foreach_from_file_path with
  | some ff =>
    (kvInsert acc.1 (ff.name ++ "_file") (get_variable ff),
     acc.2 ++ ["try(jsondecode(file(var." ++ ff.name ++ "_file)), \x7b\x7d)"])
  | Option.none => acc

/-- The `get_foreach(key, foreach_key, output_description)`: nothing when no
iterator parameter was declared; otherwise one `(path, document)` pair per
configured foreach target module, whose `module.default` carries the
iterator as `for_each`, the relative `source` and the rebound triggers. -/
def get_foreach (st : MRState) (key0 : Option String) (foreach_key0 : Option String)
    (output_description : String) : Option (List (String × ForeachDoc)) :=
  if st.foreach_iterator.isNone ∧ st.foreach_from_file_path.isNone then
    Option.none
  else
    let seed := foreachIterSeed st
    let module_iterator :=
      match seed.2 with
      | [it] => it
      | its => "merge(" ++ pyJoin "," its ++ ")"
    let module_iterator := "$\x7b" ++ module_iterator ++ "\x7d"
    let varBlocks := (get_variables st false true).foldl (fun acc nv =>
      if (kvGet? acc nv.1).isSome ∨ nv.1 ∈ st.foreach_keys ∨
          nv.1 ∈ st.foreach_values then acc
      else if nv.1 = "log_file_name" ∧ st.foreach_bind_log_file_name_to_key then acc
      else kvInsert acc nv.1 nv.2) seed.1
    let triggers := get_foreach_triggers st
    let key := match key0 with
      | some k => some k
      | Option.none => (kvGet? st.generator_parameters "key").map pyStr
    some (st.foreach_modules.map (fun pc =>
      let module := kvUnion
        [("for_each", module_iterator), ("source", "../" ++ pc.2)] triggers
      let output := match key with
        | Option.none => Option.none
        | some k =>
          let fk := match foreach_key0 with
            | some f => f
            | Option.none =>
              match kvGet? st.generator_parameters "foreach_key" with
              | some v => pyStr v
              | Option.none => k
          some (fk,
            [("value", PyVal.str
              ("$\x7b\x7bfor id, data in module.default : id => data." ++ k
                ++ "\x7d\x7d")),
             ("description", PyVal.str output_description)])
      (pc.1, { variable_blocks := varBlocks, module_default := module
               output := output })))

/-! ## Shared concrete fixtures and projections -/

/-- Projection of an `Except` result for concrete evaluations. -/
def okOf {α : Type} : Except String α → Option α
  | Except.ok a => some a
  | Except.error _ => Option.none

/-- A concrete defaults table for concrete runs (the real values live in the
excluded `defaults` module and are configuration, not logic). -/
def cfgDemo : DefaultsCfg :=
  { terraform_modules_dir := "modules", terraform_modules_class := "library"
    terraform_modules_name_delim := "-", terraform_modules_binary_name := "tmi" }

/-- A freshly-initialised descriptor state with no parameters. -/
def sampleState : MRState :=
  { modules_dir := "modules", modules_class := "library", name_delim := "-"
    binary_name := "tmi", module_name := "m", module_type := Option.none
    docstring := Option.none, descriptor := Option.none, module_parameters := []
    generator_parameters := [], extra_outputs := [], sub_keys := []
    required_providers := [], copy_variables_to := [], module_parameter_names := []
    foreach_modules := [], foreach_iterator := Option.none
    foreach_from_file_path := Option.none, foreach_keys := [], foreach_values := []
    foreach_only := [], foreach_forbidden := [], generation_forbidden := false
    call := "tmi m", foreach_bind_log_file_name_to_key := false }

/-- A parameter with an explicit `trigger` override. -/
def overrideParam : TerraformModuleParameter :=
  { name := "x", json_encode := false, base64_encode := false
    default := PyVal.none, required := true, description := Option.none
    sensitive := false, type := some "any", trigger := some "foo" }

/-- A parameter with both encodings requested and no override. -/
def doubleEncodeParam : TerraformModuleParameter :=
  { name := "x", json_encode := true, base64_encode := true
    default := PyVal.none, required := true, description := Option.none
    sensitive := false, type := some "any", trigger := Option.none }

/-- A parameter-shape helper for the C6 witness. -/
def bareParam (n : String) (d : PyVal) : TerraformModuleParameter :=
  { name := n, json_encode := false, base64_encode := false, default := d
    required := true, description := Option.none, sensitive := false
    type := Option.none, trigger := Option.none }

/-- A parameter with an explicit type, for the fixed-type case of C6. -/
def typedParam : TerraformModuleParameter :=
  { name := "x", json_encode := false, base64_encode := false
    default := PyVal.none, required := true, description := Option.none
    sensitive := false, type := some "custom", trigger := Option.none }

/-- The descriptor built from a docstring that declares the flagged `region`
iterator, a plain parameter named `for_each`, and one foreach target. -/
def c8CexInit : Option MRState :=
  okOf (initResources cfgDemo "mymod"
    (some "Desc\nname:region,foreach_iterator:true\nname:for_each\nforeach=module_name:regions")
    Option.none Option.none Option.none Option.none Option.none Option.none)

/-- The flagged `region` parameter as the descriptor parser would build it. -/
def regionParam : TerraformModuleParameter :=
  post_init
    { name := "region", json_encode := false, base64_encode := false
      default := PyVal.none, required := true, description := Option.none
      sensitive := false, type := Option.none, trigger := Option.none }

/-- A concrete descriptor state with the `region` iterator and one target. -/
def c8WitnessState : MRState :=
  { sampleState with
    module_parameters := [regionParam]
    module_parameter_names := ["region"]
    foreach_iterator := some regionParam
    foreach_modules := [("p", "c")] }

/-! ## C3 — duplicated foreach flags -/

/-- Whether a stripped line is one of the six structured directives. -/
def isDirectiveLine (param : String) : Bool :=
  pyStartsWith "generator=" param || pyStartsWith "extra_output=" param ||
  pyStartsWith "sub_key=" param || pyStartsWith "required_provider=" param ||
  pyStartsWith "copy_variables_to=" param || pyStartsWith "foreach=" param

/-- The parameter a docstring line contributes to the descriptor field of
the given foreach control flag: defined exactly when the line is a plain
parameter line whose chunks parse, carry the flag, and construct a
parameter. -/
def lineFlagParam (flag : String) (line : String) :
    Option TerraformModuleParameter :=
  let param := String.mk (pyStrip line.data)
  if is_nothing_py (PyVal.str param) then Option.none
  else if pyStartsWith "#" param then Option.none
  else if isDirectiveLine param then Option.none
  else
    match parseChunks (split_param param) with
    | Except.error _ => Option.none
    | Except.ok kvs =>
      if kvs.any (fun kv => kv.1 = flag) then
        match mkParamFromDict (expandedOf kvs) with
        | Except.ok p => some p
        | Except.error _ => Option.none
      else Option.none

/-- Last-occurrence accumulation: each line that contributes a flagged
parameter overwrites the accumulator. -/
def lastWins (f : String → Option TerraformModuleParameter) :
    List String → Option TerraformModuleParameter → Option TerraformModuleParameter
  | [], acc => acc
  | l :: ls, acc =>
    lastWins f ls (match f l with | some p => some p | Option.none => acc)

/-- The parameter lines of a docstring: its non-empty lines minus the
leading descriptor line. -/
def paramLines (ds : String) : List String :=
  ((pySplitLines ds).filter (fun l => l ≠ "")).drop 1

/-- Unfolding equation for `scanMatch` on a two-or-more element list. -/
theorem scanMatch_cons (c d : Char) (t : List Char) :
    scanMatch (c :: d :: t) =
      if c = '\n' then Option.none
      else if d = '\x7d' then some ([c], d :: t)
      else
        match scanMatch (d :: t) with
        | some (m, r) => some (c :: m, r)
        | Option.none => Option.none := rfl

/-- A lazy brace match consumes at least one input character, so the fuel
passed to `findallAux` suffices. -/
theorem scanMatch_length :
    ∀ cs m r, scanMatch cs = some (m, r) → r.length < cs.length := by
  intro cs
  induction cs with
  | nil => intro m r h; simp [scanMatch] at h
  | cons c rest ih =>
    intro m r h
    by_cases hc : c = '\n'
    · simp [scanMatch, hc] at h
    · cases rest with
      | nil => simp [scanMatch, hc] at h
      | cons d t =>
        rw [scanMatch_cons, if_neg hc] at h
        by_cases hd : d = '\x7d'
        · rw [if_pos hd] at h
          injection h with h1
          cases h1
          simp
        · rw [if_neg hd] at h
          cases hsm : scanMatch (d :: t) with
          | none => rw [hsm] at h; cases h
          | some pr =>
            obtain ⟨m', r'⟩ := pr
            rw [hsm] at h
            injection h with h1
            have hr : r' = r := congrArg Prod.snd h1
            subst hr
            have hlt := ih m' r' hsm
            simp only [List.length_cons] at hlt ⊢
            omega

/-! ## C1 — trigger wrapping -/

/-- C1 counterexample: a parameter carrying the explicit trigger override
`"foo"` makes `get_trigger` return `"foo"` itself, which is not of the form
`try(nonsensitive(E), E)` for any expression `E` — the claim's "wrapping is
applied also when the parameter carries an explicit trigger override" fails
on the code, whose first line returns the override verbatim. -/
theorem get_trigger_override_not_wrapped_cex :
    get_trigger overrideParam false = "foo" ∧
    ∀ E : String, get_trigger overrideParam false ≠ wrapTry E := by
  refine ⟨rfl, ?_⟩
  intro E h
  rw [show get_trigger overrideParam false = "foo" from rfl] at h
  have hl := congrArg String.length h
  rw [wrapTry] at hl
  simp only [String.length_append] at hl
  rw [show ("foo" : String).length = 3 from rfl,
    show ("$\x7btry(nonsensitive(" : String).length = 19 from rfl,
    show ("), " : String).length = 3 from rfl,
    show (")\x7d" : String).length = 2 from rfl] at hl
  omega

/-- C1 (amended): `get_trigger` wraps the (possibly encoded) variable
reference as `try(nonsensitive(E), E)` exactly when the parameter has no
explicit `trigger` override; an explicit override is returned verbatim,
without the wrapping. -/
theorem get_trigger_wrap_amended (p : TerraformModuleParameter) (d : Bool) :
    (p.trigger = Option.none → get_trigger p d = wrapTry (encoded_expr p d)) ∧
    (∀ t, p.trigger = some t → get_trigger p d = t) := by
  constructor
  · intro h
    rw [get_trigger, h, wrapTry, encoded_expr]
  · intro t h
    rw [get_trigger, h]

/-- C1 witness: the amended statement applied to the double-encoding
parameter (no override) and to the override parameter. -/
theorem get_trigger_wrap_amended_witness :
    get_trigger doubleEncodeParam false =
      "$\x7btry(nonsensitive(base64encode(jsonencode(var.x))), base64encode(jsonencode(var.x)))\x7d" ∧
    get_trigger overrideParam true = "foo" :=
  ⟨(get_trigger_wrap_amended doubleEncodeParam false).1 rfl,
   (get_trigger_wrap_amended overrideParam true).2 "foo" rfl⟩

/-! ## C4 — `decode_type_param` on a plain wrapped type -/

/-- C4 counterexample: `decode_type_param` applied to the wrapped plain type
and key `k` succeeds — it does not raise the unterminated-parenthesis
error the claim asserts (there is no opening parenthesis in `string`, so the
parenthesis checks never fire). -/
theorem decode_type_param_string_no_error_cex :
    (decode_type_param (VarTypeArg.str "$\x7bstring\x7d") "k").isOk = true := rfl

/-- C4 (amended): on the wrapped plain type the function returns the
extracted type string `"string"`; the unterminated-parenthesis error is
reserved for types containing `(` without `)`. -/
theorem decode_type_param_string_returns_string :
    decode_type_param (VarTypeArg.str "$\x7bstring\x7d") "k" = Except.ok "string" :=
  rfl

/-! ## C7 — object degradation and set normalisation -/

/-- C7: `decode_type_param` degrades the wrapped object type to `any` and
rewrites the wrapped set type to `list(string)`. -/
theorem decode_type_param_object_and_set :
    decode_type_param (VarTypeArg.str "$\x7bobject(\x7bfoo=string\x7d)\x7d") "k" =
      Except.ok "any" ∧
    decode_type_param (VarTypeArg.str "$\x7bset(string)\x7d") "k" =
      Except.ok "list(string)" :=
  ⟨rfl, rfl⟩

/-! ## C6 — parameter type inference -/

/-- C6: a parameter constructed with no explicit type infers `string` for a
string default or a name ending in `id` (also with a non-string default),
`bool` for a boolean default, `number` for an integer default, and `any`
otherwise; a parameter whose type is already set is returned unchanged by
`__post_init__`, so the inferred type is fixed at construction. -/
theorem parameter_type_inference (p : TerraformModuleParameter) :
    (p.type = Option.none →
      (post_init p).type = some (
        if isStrVal p.default ∨ pyEndsWith "id" p.name then "string"
        else if isBoolVal p.default then "bool"
        else if isIntVal p.default then "number"
        else "any")) ∧
    (∀ t, p.type = some t → post_init p = p) := by
  constructor
  · intro h
    rw [post_init, h]
  · intro t h
    rw [post_init, h]

/-- C6 witness: all five inference cases and the fixed explicit type, via
`parameter_type_inference` at concrete parameters. -/
theorem parameter_type_inference_witness :
    (post_init (bareParam "x" (PyVal.str "a"))).type = some "string" ∧
    (post_init (bareParam "userid" (PyVal.int 3))).type = some "string" ∧
    (post_init (bareParam "x" (PyVal.bool true))).type = some "bool" ∧
    (post_init (bareParam "x" (PyVal.int 5))).type = some "number" ∧
    (post_init (bareParam "x" PyVal.none)).type = some "any" ∧
    post_init typedParam = typedParam :=
  ⟨(parameter_type_inference (bareParam "x" (PyVal.str "a"))).1 rfl,
   (parameter_type_inference (bareParam "userid" (PyVal.int 3))).1 rfl,
   (parameter_type_inference (bareParam "x" (PyVal.bool true))).1 rfl,
   (parameter_type_inference (bareParam "x" (PyVal.int 5))).1 rfl,
   (parameter_type_inference (bareParam "x" PyVal.none)).1 rfl,
   (parameter_type_inference typedParam).2 "custom" rfl⟩

/-! ## C10 — scalar compaction of long list defaults -/

/-- C10: for a variable type that is not list-shaped and a list default with
at least two elements, `compact_default_for_variable_type` returns only the
first element, silently discarding the rest. -/
theorem compact_default_discards_tail (t : String) (xs : List PyVal) (k : String)
    (h1 : isListTypeStr t = false) (h2 : 2 ≤ xs.length) :
    compact_default_for_variable_type t (PyVal.list xs) k = xs.headD PyVal.none := by
  match xs, h2 with
  | x :: y :: rest, _ =>
    rw [compact_default_for_variable_type]
    simp [h1, isListVal]

/-- C10 witness: the two-element list default under a scalar type collapses
to its first element. -/
theorem compact_default_discards_tail_witness :
    isListTypeStr "string" = false ∧
    compact_default_for_variable_type "string"
      (PyVal.list [PyVal.str "a", PyVal.str "b"]) "k" = PyVal.str "a" :=
  ⟨rfl, compact_default_discards_tail "string" [PyVal.str "a", PyVal.str "b"] "k"
    rfl (by decide)⟩

/-! ## C5 — module class resolution -/

/-- C5 counterexample: the explicit override `"_foo"` starts with a
non-alphanumeric character but contains alphanumeric ones, and
`get_module_class` returns it unchanged — not the suffix `"foo"` starting at
the first alphanumeric character that the claim describes (the code computes
the first-alphanumeric search result but only uses it for the none-check). -/
theorem get_module_class_no_normalization_cex :
    get_module_class sampleState (some (PyVal.str "_foo")) =
      Except.ok (some (PyVal.str "_foo")) ∧
    get_module_class sampleState (some (PyVal.str "_foo")) ≠
      Except.ok (some (PyVal.str "foo")) := by
  refine ⟨rfl, ?_⟩
  intro h
  rw [show get_module_class sampleState (some (PyVal.str "_foo")) =
    Except.ok (some (PyVal.str "_foo")) from rfl] at h
  injection h with h1
  injection h1 with h2
  injection h2 with h3
  exact absurd h3 (by decide)

/-- C5 (amended): `get_module_class` returns an explicit non-empty override
unchanged (no normalisation to its first alphanumeric character) whenever it
contains any alphanumeric character; it returns none exactly when the
override contains no alphanumeric character at all; and with no override it
falls back to the `module_class` generator parameter, else the configured
shared class. -/
theorem get_module_class_amended (st : MRState) :
    (∀ mc : String, is_nothing_strOpt (some mc) = false →
      mc.data.any Char.isAlphanum = true →
      get_module_class st (some (PyVal.str mc)) =
        Except.ok (some (PyVal.str mc))) ∧
    (∀ mc : String, is_nothing_strOpt (some mc) = false →
      mc.data.any Char.isAlphanum = false →
      get_module_class st (some (PyVal.str mc)) = Except.ok Option.none) ∧
    get_module_class st Option.none =
      Except.ok (some (kvGetD st.generator_parameters "module_class"
        (PyVal.str st.modules_class))) := by
  refine ⟨?_, ?_, rfl⟩
  · intro mc h1 h2
    rw [get_module_class]
    rw [show is_nothing_pyOpt (some (PyVal.str mc)) = false from h1, if_neg (by simp)]
    by_cases hf : firstCharAlnum mc
    · simp [hf]
    · simp [hf, h2]
  · intro mc h1 h2
    rw [get_module_class]
    rw [show is_nothing_pyOpt (some (PyVal.str mc)) = false from h1, if_neg (by simp)]
    have hf : firstCharAlnum mc = false := by
      rw [firstCharAlnum]
      cases hd : mc.data with
      | nil => rfl
      | cons c t =>
        rw [hd] at h2
        simp only [List.any_cons, Bool.or_eq_false_iff] at h2
        exact h2.1
    simp [hf, h2]

/-- C5 witness: the amended statement at `sampleState` for an alphanumeric
override, an override with no alphanumeric character, and the fallback. -/
theorem get_module_class_amended_witness :
    get_module_class sampleState (some (PyVal.str "foo")) =
      Except.ok (some (PyVal.str "foo")) ∧
    get_module_class sampleState (some (PyVal.str "_-_")) =
      Except.ok Option.none ∧
    get_module_class sampleState Option.none =
      Except.ok (some (PyVal.str "library")) :=
  ⟨(get_module_class_amended sampleState).1 "foo" rfl (by decide),
   (get_module_class_amended sampleState).2.1 "_-_" rfl (by decide),
   (get_module_class_amended sampleState).2.2⟩

/-! ## C9 — colon-count discipline of chunk parsing -/

/-- Dropping a prefix of characters that all satisfy `p` cannot change the
count of a character `p` rejects. -/
theorem count_dropWhile_eq {p : Char → Bool} {c : Char} (hc : p c = false) :
    ∀ cs : List Char, (cs.dropWhile p).count c = cs.count c := by
  intro cs
  induction cs with
  | nil => simp
  | cons x t ih =>
    by_cases hx : p x
    · have hxc : x ≠ c := by
        intro he
        rw [he, hc] at hx
        exact Bool.noConfusion hx
      rw [List.dropWhile_cons_of_pos hx, ih, List.count_cons]
      simp [hxc]
    · rw [List.dropWhile_cons_of_neg hx]

/-- Whitespace stripping preserves the count of non-whitespace characters. -/
theorem count_pyStrip (c : Char) (hc : c.isWhitespace = false) (cs : List Char) :
    (pyStrip cs).count c = cs.count c := by
  rw [pyStrip, List.count_reverse, count_dropWhile_eq hc, List.count_reverse,
    count_dropWhile_eq hc]

/-- Quote stripping preserves the count of every other character. -/
theorem count_pyStripChar (q c : Char) (h : c ≠ q) (cs : List Char) :
    (pyStripChar q cs).count c = cs.count c := by
  have hq : (fun x => decide (x = q)) c = false := by simp [h]
  rw [pyStripChar, List.count_reverse, count_dropWhile_eq hq, List.count_reverse,
    count_dropWhile_eq hq]

/-- Splitting on a character yields one part more than its count. -/
theorem splitOnChar_length (c : Char) :
    ∀ cs : List Char, (splitOnChar c cs).length = cs.count c + 1 := by
  intro cs
  induction cs with
  | nil => simp [splitOnChar]
  | cons x t ih =>
    by_cases hx : x = c
    · subst hx
      rw [splitOnChar]
      simp [List.count_cons, ih]
    · rw [splitOnChar]
      simp only [hx, ite_false]
      cases hr : splitOnChar c t with
      | nil => rw [hr] at ih; simp at ih
      | cons h0 tl =>
        rw [hr] at ih
        simp only [List.length_cons] at ih ⊢
        rw [List.count_cons]
        simp [hx, ih]

/-- C9: a chunk whose colon count differs from one (none, or two or more,
as with a quoted URL value) makes `get_json_export_for_chunk` raise the
malformed-chunk error instead of returning a key/value pair — the stripping
steps remove only whitespace and quote characters, so the split on `":"`
yields a number of parts different from two exactly then. -/
theorem chunk_colon_count_error (chunk : String)
    (h : chunk.data.count ':' ≠ 1) :
    get_json_export_for_chunk chunk =
      Except.error ("Failed to get chunks for: " ++ chunk) := by
  rw [get_json_export_for_chunk]
  have hcount : (pyStripChar '"' (pyStrip chunk.data)).count ':' =
      chunk.data.count ':' := by
    rw [count_pyStripChar _ _ (by decide), count_pyStrip _ (by decide)]
  have hlen := splitOnChar_length ':' (pyStripChar '"' (pyStrip chunk.data))
  rw [hcount] at hlen
  cases hp : splitOnChar ':' (pyStripChar '"' (pyStrip chunk.data)) with
  | nil => rfl
  | cons a tl =>
    cases tl with
    | nil => rfl
    | cons b tl2 =>
      cases tl2 with
      | nil =>
        rw [hp] at hlen
        simp at hlen
        exact absurd (by omega : chunk.data.count ':' = 1) h
      | cons c3 tl3 => rfl

/-- C9 witness: the colon-free chunk of the `key=value` style raises. -/
theorem chunk_colon_count_error_witness :
    ("name=foo".data.count ':' ≠ 1) ∧
    get_json_export_for_chunk "name=foo" =
      Except.error "Failed to get chunks for: name=foo" :=
  ⟨by decide, chunk_colon_count_error "name=foo" (by decide)⟩

/-! ## C2 — duplicate parameter entries (code bug) -/

/-- C2: the plain parameter line `name:foo` produces a descriptor whose
ordered parameter list contains TWO entries named `foo` (plus the three
injected bookkeeping parameters), because the parsing loop appends both the
constructed parameter object and the raw chunk dictionary, and
`set_module_params` turns the dictionary into a second copy — the
names-are-unique invariant the spec states does not hold on the list. -/
theorem duplicate_param_entries_bug :
    (okOf (initResources cfgDemo "m" (some "Desc\nname:foo") Option.none
      Option.none Option.none Option.none Option.none Option.none)).map
      (fun st => ((st.module_parameters.filter (fun p => p.name = "foo")).length,
        st.module_parameters.length)) = some (2, 5) := rfl

/-! ## C8 — foreach expansion of a single region iterator -/

/-- Lookup after a dict write: the written key reads back the new value,
every other key is untouched. -/
theorem kvGet?_kvInsert {κ α : Type} [DecidableEq κ] (d : List (κ × α)) (k' k : κ)
    (v : α) :
    kvGet? (kvInsert d k' v) k = if k' = k then some v else kvGet? d k := by
  induction d with
  | nil => by_cases h : k' = k <;> simp [kvInsert, kvGet?, h]
  | cons kv t ih =>
    obtain ⟨k1, v1⟩ := kv
    rw [kvInsert]
    by_cases h1 : k1 = k'
    · rw [if_pos h1]
      subst h1
      by_cases h2 : k1 = k
      · rw [kvGet?, if_pos h2, if_pos h2]
      · rw [kvGet?, if_neg h2, if_neg h2, kvGet?, if_neg h2]
    · rw [if_neg h1, kvGet?]
      by_cases h3 : k1 = k
      · rw [if_pos h3]
        have h2 : ¬ k' = k := fun he => h1 (h3.trans he.symm)
        rw [if_neg h2, kvGet?, if_pos h3]
      · rw [if_neg h3, ih]
        by_cases h2 : k' = k
        · rw [if_pos h2, if_pos h2]
        · rw [if_neg h2, if_neg h2, kvGet?, if_neg h3]

/-- A dict merge cannot change a key the right-hand dict does not contain. -/
theorem kvGet?_kvUnion_none {κ α : Type} [DecidableEq κ] :
    ∀ (d2 d1 : List (κ × α)) (k : κ), kvGet? d2 k = Option.none →
      kvGet? (kvUnion d1 d2) k = kvGet? d1 k := by
  intro d2
  induction d2 with
  | nil => intro d1 k _; rfl
  | cons kv t ih =>
    intro d1 k h
    obtain ⟨k2, v2⟩ := kv
    rw [kvGet?] at h
    by_cases h2 : k2 = k
    · rw [if_pos h2] at h; exact Option.noConfusion h
    · rw [if_neg h2] at h
      rw [show kvUnion d1 ((k2, v2) :: t) = kvUnion (kvInsert d1 k2 v2) t from rfl]
      rw [ih _ k h, kvGet?_kvInsert, if_neg h2]

/-- C8 counterexample: this descriptor satisfies the claim's conditions
(one flagged iterator named `region`, no foreach-from-file parameter,
exactly one foreach target) and `get_foreach` does yield exactly one pair —
but its `module.default.for_each` is the trigger of the parameter named
`for_each`, which the Python dict merge writes over the iterator, not the
claimed region expression. -/
theorem get_foreach_for_each_param_cex :
    (c8CexInit.map (fun st =>
      (st.foreach_iterator.map (fun p => p.name),
       st.foreach_from_file_path.isNone,
       st.foreach_modules.length,
       (get_foreach st Option.none Option.none "Data query results").map (fun l =>
         l.map (fun pd => (pd.1, kvGet? pd.2.module_default "for_each"))))) =
      some (some "region", true, 1,
        some [("modules/library/library-regions/main.tf.json",
          some "$\x7btry(nonsensitive(var.for_each), var.for_each)\x7d")])) ∧
    ("$\x7btry(nonsensitive(var.for_each), var.for_each)\x7d" : String) ≠
      "$\x7btry(nonsensitive(var.region), var.region)\x7d" :=
  ⟨rfl, by decide⟩

/-- C8 (amended): for every descriptor with exactly one foreach-iterator
parameter named `region`, no foreach-from-file parameter, exactly one
configured foreach target, and no `for_each` key among the foreach triggers
(no surviving parameter named `for_each`), `get_foreach` produces exactly
one `(path, document)` pair and that document's `module.default.for_each`
is the try/nonsensitive-wrapped `var.region`. -/
theorem get_foreach_single_region_amended (st : MRState)
    (p : TerraformModuleParameter) (path call : String)
    (k0 fk0 : Option String) (od : String)
    (h1 : st.foreach_iterator = some p) (h2 : p.name = "region")
    (h3 : st.foreach_from_file_path = Option.none)
    (h4 : st.foreach_modules = [(path, call)])
    (h5 : kvGet? (get_foreach_triggers st) "for_each" = Option.none) :
    (get_foreach st k0 fk0 od).map (fun l => l.map (fun pd =>
      (pd.1, kvGet? pd.2.module_default "for_each"))) =
    some [(path, some "$\x7btry(nonsensitive(var.region), var.region)\x7d")] := by
  have hseed : foreachIterSeed st =
      ([("region", get_variable p)],
       ["try(nonsensitive(var.region), var.region)"]) := by
    simp [foreachIterSeed, h1, h3, h2, kvInsert]
  rw [get_foreach.eq_def, h1, h3, h4]
  rw [if_neg (by simp)]
  rw [hseed]
  simp only [List.map, Option.map]
  rw [kvGet?_kvUnion_none _ _ _ h5]
  simp only [kvGet?, if_pos rfl]
  rfl

/-- C8 witness: the amended statement applied to the concrete single-target
state. -/
theorem get_foreach_single_region_amended_witness :
    (get_foreach c8WitnessState Option.none Option.none "Data query results").map
      (fun l => l.map (fun pd => (pd.1, kvGet? pd.2.module_default "for_each"))) =
    some [("p", some "$\x7btry(nonsensitive(var.region), var.region)\x7d")] :=
  get_foreach_single_region_amended c8WitnessState regionParam "p" "c"
    Option.none Option.none "Data query results" rfl rfl rfl rfl rfl

/-- Destructuring a successful monadic bind into its two successful steps. -/
theorem exceptBind_ok {α β : Type} (e : Except String α) (f : α → Except String β)
    (b : β) (h : (e >>= f) = Except.ok b) :
    ∃ a, e = Except.ok a ∧ f a = Except.ok b := by
  cases e with
  | error msg => exact Except.noConfusion h
  | ok a => exact ⟨a, rfl, h⟩

/-- An error-message wrapper is transparent on success. -/
theorem exceptMapError_ok {α : Type} (e : Except String α) (g : String → String)
    (a : α) (h : e.mapError g = Except.ok a) : e = Except.ok a := by
  cases e with
  | error m => exact Except.noConfusion h
  | ok b => exact h

/-- Destructuring a successful mapped computation. -/
theorem exceptMap_ok {α β : Type} (e : Except String α) (f : α → β) (b : β)
    (h : e.map f = Except.ok b) : ∃ a, e = Except.ok a ∧ f a = b := by
  cases e with
  | error m => exact Except.noConfusion h
  | ok a =>
    refine ⟨a, rfl, ?_⟩
    injection h

/-- A `generator=` directive never touches the foreach iterator fields. -/
theorem applyGenerator_pres (st : MRState) (x : String) (st' : MRState)
    (h : applyGenerator st x = Except.ok st') :
    st'.foreach_iterator = st.foreach_iterator ∧
    st'.foreach_from_file_path = st.foreach_from_file_path := by
  rw [applyGenerator] at h
  obtain ⟨kvs, hk, h⟩ := exceptBind_ok _ _ _ h
  injection h with h1
  subst h1
  exact ⟨rfl, rfl⟩

/-- An `extra_output=` directive never touches the foreach iterator fields. -/
theorem applyExtraOutput_pres (st : MRState) (x : String) (st' : MRState)
    (h : applyExtraOutput st x = Except.ok st') :
    st'.foreach_iterator = st.foreach_iterator ∧
    st'.foreach_from_file_path = st.foreach_from_file_path := by
  rw [applyExtraOutput] at h
  obtain ⟨kvs, hk, h⟩ := exceptBind_ok _ _ _ h
  split at h
  · split at h
    · exact Except.noConfusion h
    · injection h with h1
      subst h1
      exact ⟨rfl, rfl⟩
  · exact Except.noConfusion h

/-- A `sub_key=` directive never touches the foreach iterator fields. -/
theorem applySubKey_pres (st : MRState) (x : String) (st' : MRState)
    (h : applySubKey st x = Except.ok st') :
    st'.foreach_iterator = st.foreach_iterator ∧
    st'.foreach_from_file_path = st.foreach_from_file_path := by
  rw [applySubKey] at h
  obtain ⟨kvs, hk, h⟩ := exceptBind_ok _ _ _ h
  split at h
  · split at h
    · exact Except.noConfusion h
    · injection h with h1
      subst h1
      exact ⟨rfl, rfl⟩
  · exact Except.noConfusion h

/-- A `required_provider=` directive never touches the foreach iterator
fields. -/
theorem applyRequiredProvider_pres (st : MRState) (x : String) (st' : MRState)
    (h : applyRequiredProvider st x = Except.ok st') :
    st'.foreach_iterator = st.foreach_iterator ∧
    st'.foreach_from_file_path = st.foreach_from_file_path := by
  rw [applyRequiredProvider] at h
  obtain ⟨kvs, hk, h⟩ := exceptBind_ok _ _ _ h
  split at h
  · split at h
    · exact Except.noConfusion h
    · injection h with h1
      subst h1
      exact ⟨rfl, rfl⟩
  · exact Except.noConfusion h

/-- A `copy_variables_to=` directive never touches the foreach iterator
fields. -/
theorem applyCopyVariablesTo_pres (st : MRState) (x : String) (st' : MRState)
    (h : applyCopyVariablesTo st x = Except.ok st') :
    st'.foreach_iterator = st.foreach_iterator ∧
    st'.foreach_from_file_path = st.foreach_from_file_path := by
  rw [applyCopyVariablesTo] at h
  obtain ⟨kvs, hk, h⟩ := exceptBind_ok _ _ _ h
  injection h with h1
  subst h1
  exact ⟨rfl, rfl⟩

/-- A `foreach=` directive records the target module but never touches the
foreach iterator fields. -/
theorem applyForeach_pres (st : MRState) (x : String) (st' : MRState)
    (h : applyForeach st x = Except.ok st') :
    st'.foreach_iterator = st.foreach_iterator ∧
    st'.foreach_from_file_path = st.foreach_from_file_path := by
  rw [applyForeach] at h
  obtain ⟨kvs, hk, h⟩ := exceptBind_ok _ _ _ h
  obtain ⟨acc, ha, h⟩ := exceptBind_ok _ _ _ h
  obtain ⟨path, hp, h⟩ := exceptBind_ok _ _ _ h
  obtain ⟨cn, hc, h⟩ := exceptBind_ok _ _ _ h
  injection h with h1
  subst h1
  exact ⟨rfl, rfl⟩

/-- One-line step characterisation: a successfully processed docstring line
sets each foreach flag field to its own flagged parameter when it has one
and leaves the field unchanged otherwise. -/
theorem processParamLine_iter (st : MRState) (mp : List ParamEntry) (l : String)
    (st' : MRState) (mp' : List ParamEntry)
    (h : processParamLine st mp l = Except.ok (st', mp')) :
    st'.foreach_iterator = (match lineFlagParam "foreach_iterator" l with
      | some p => some p
      | Option.none => st.foreach_iterator) ∧
    st'.foreach_from_file_path = (match lineFlagParam "foreach_from_file_path" l with
      | some p => some p
      | Option.none => st.foreach_from_file_path) := by
  simp only [processParamLine] at h
  simp only [lineFlagParam]
  by_cases h0 : is_nothing_py (PyVal.str (String.mk (pyStrip l.data))) = true
  · rw [if_pos h0] at h
    rw [if_pos h0, if_pos h0]
    injection h with h1
    have hst : st = st' := congrArg Prod.fst h1
    subst hst
    exact ⟨rfl, rfl⟩
  rw [if_neg h0] at h
  rw [if_neg h0, if_neg h0]
  by_cases hH : pyStartsWith "#" (String.mk (pyStrip l.data)) = true
  · rw [if_pos hH] at h
    rw [if_pos hH, if_pos hH]
    split at h <;>
    · injection h with h1
      have hst : _ = st' := congrArg Prod.fst h1
      subst hst
      exact ⟨rfl, rfl⟩
  rw [if_neg hH] at h
  rw [if_neg hH, if_neg hH]
  by_cases hG : pyStartsWith "generator=" (String.mk (pyStrip l.data)) = true
  · rw [if_pos hG] at h
    rw [if_pos (show isDirectiveLine (String.mk (pyStrip l.data)) = true by
        simp [isDirectiveLine, hG]),
      if_pos (show isDirectiveLine (String.mk (pyStrip l.data)) = true by
        simp [isDirectiveLine, hG])]
    have h' := exceptMapError_ok _ _ _ h
    obtain ⟨st1, ha, hb⟩ := exceptMap_ok _ _ _ h'
    have hst : st1 = st' := congrArg Prod.fst hb
    subst hst
    exact applyGenerator_pres _ _ _ ha
  rw [if_neg hG] at h
  by_cases hE : pyStartsWith "extra_output=" (String.mk (pyStrip l.data)) = true
  · rw [if_pos hE] at h
    rw [if_pos (show isDirectiveLine (String.mk (pyStrip l.data)) = true by
        simp [isDirectiveLine, hE]),
      if_pos (show isDirectiveLine (String.mk (pyStrip l.data)) = true by
        simp [isDirectiveLine, hE])]
    have h' := exceptMapError_ok _ _ _ h
    obtain ⟨st1, ha, hb⟩ := exceptMap_ok _ _ _ h'
    have hst : st1 = st' := congrArg Prod.fst hb
    subst hst
    exact applyExtraOutput_pres _ _ _ ha
  rw [if_neg hE] at h
  by_cases hS : pyStartsWith "sub_key=" (String.mk (pyStrip l.data)) = true
  · rw [if_pos hS] at h
    rw [if_pos (show isDirectiveLine (String.mk (pyStrip l.data)) = true by
        simp [isDirectiveLine, hS]),
      if_pos (show isDirectiveLine (String.mk (pyStrip l.data)) = true by
        simp [isDirectiveLine, hS])]
    have h' := exceptMapError_ok _ _ _ h
    obtain ⟨st1, ha, hb⟩ := exceptMap_ok _ _ _ h'
    have hst : st1 = st' := congrArg Prod.fst hb
    subst hst
    exact applySubKey_pres _ _ _ ha
  rw [if_neg hS] at h
  by_cases hR : pyStartsWith "required_provider=" (String.mk (pyStrip l.data)) = true
  · rw [if_pos hR] at h
    rw [if_pos (show isDirectiveLine (String.mk (pyStrip l.data)) = true by
        simp [isDirectiveLine, hR]),
      if_pos (show isDirectiveLine (String.mk (pyStrip l.data)) = true by
        simp [isDirectiveLine, hR])]
    have h' := exceptMapError_ok _ _ _ h
    obtain ⟨st1, ha, hb⟩ := exceptMap_ok _ _ _ h'
    have hst : st1 = st' := congrArg Prod.fst hb
    subst hst
    exact applyRequiredProvider_pres _ _ _ ha
  rw [if_neg hR] at h
  by_cases hC : pyStartsWith "copy_variables_to=" (String.mk (pyStrip l.data)) = true
  · rw [if_pos hC] at h
    rw [if_pos (show isDirectiveLine (String.mk (pyStrip l.data)) = true by
        simp [isDirectiveLine, hC]),
      if_pos (show isDirectiveLine (String.mk (pyStrip l.data)) = true by
        simp [isDirectiveLine, hC])]
    have h' := exceptMapError_ok _ _ _ h
    obtain ⟨st1, ha, hb⟩ := exceptMap_ok _ _ _ h'
    have hst : st1 = st' := congrArg Prod.fst hb
    subst hst
    exact applyCopyVariablesTo_pres _ _ _ ha
  rw [if_neg hC] at h
  by_cases hF : pyStartsWith "foreach=" (String.mk (pyStrip l.data)) = true
  · rw [if_pos hF] at h
    rw [if_pos (show isDirectiveLine (String.mk (pyStrip l.data)) = true by
        simp [isDirectiveLine, hF]),
      if_pos (show isDirectiveLine (String.mk (pyStrip l.data)) = true by
        simp [isDirectiveLine, hF])]
    have h' := exceptMapError_ok _ _ _ h
    obtain ⟨st1, ha, hb⟩ := exceptMap_ok _ _ _ h'
    have hst : st1 = st' := congrArg Prod.fst hb
    subst hst
    exact applyForeach_pres _ _ _ ha
  rw [if_neg hF] at h
  have hdir : isDirectiveLine (String.mk (pyStrip l.data)) = false := by
    simp [isDirectiveLine, hG, hE, hS, hR, hC, hF]
  rw [if_neg (by simp [hdir]), if_neg (by simp [hdir])]
  have h' := exceptMapError_ok _ _ _ h
  rw [applyParamLine] at h'
  obtain ⟨kvs, hk, h'⟩ := exceptBind_ok _ _ _ h'
  obtain ⟨p, hp, h'⟩ := exceptBind_ok _ _ _ h'
  have hmk := exceptMapError_ok _ _ _ hp
  simp only [hk]
  simp only [hmk]
  split at h'
  · injection h' with h1
    have hst : _ = st' := congrArg Prod.fst h1
    subst hst
    constructor
    · by_cases hflag : (kvs.any fun kv => kv.1 = "foreach_iterator") = true <;>
        simp [paramLineState, hflag]
    · by_cases hflag : (kvs.any fun kv => kv.1 = "foreach_from_file_path") = true <;>
        simp [paramLineState, hflag]
  · split at h'
    · injection h' with h1
      have hst : _ = st' := congrArg Prod.fst h1
      subst hst
      constructor
      · by_cases hflag : (kvs.any fun kv => kv.1 = "foreach_iterator") = true <;>
          simp [paramLineState, hflag]
      · by_cases hflag : (kvs.any fun kv => kv.1 = "foreach_from_file_path") = true <;>
          simp [paramLineState, hflag]
    · injection h' with h1
      have hst : _ = st' := congrArg Prod.fst h1
      subst hst
      constructor
      · by_cases hflag : (kvs.any fun kv => kv.1 = "foreach_iterator") = true <;>
          simp [paramLineState, hflag]
      · by_cases hflag : (kvs.any fun kv => kv.1 = "foreach_from_file_path") = true <;>
          simp [paramLineState, hflag]

/-- Over the whole line loop the flag fields accumulate with
last-occurrence-wins semantics. -/
theorem processParamLines_iter :
    ∀ (lines : List String) (st : MRState) (mp : List ParamEntry)
      (st' : MRState) (mp' : List ParamEntry),
      processParamLines st mp lines = Except.ok (st', mp') →
      st'.foreach_iterator =
        lastWins (lineFlagParam "foreach_iterator") lines st.foreach_iterator ∧
      st'.foreach_from_file_path =
        lastWins (lineFlagParam "foreach_from_file_path") lines
          st.foreach_from_file_path := by
  intro lines
  induction lines with
  | nil =>
    intro st mp st' mp' h
    simp only [processParamLines] at h
    injection h with h1
    have hst : st = st' := congrArg Prod.fst h1
    subst hst
    exact ⟨rfl, rfl⟩
  | cons l ls ih =>
    intro st mp st' mp' h
    simp only [processParamLines] at h
    obtain ⟨r, hr, h2⟩ := exceptBind_ok _ _ _ h
    have hstep := processParamLine_iter st mp l r.1 r.2 (by rw [hr])
    have hrec := ih r.1 r.2 st' mp' h2
    simp only [lastWins]
    constructor
    · rw [hrec.1, hstep.1]
    · rw [hrec.2, hstep.2]

/-- Appending parameters to the list never touches the foreach iterator
fields. -/
theorem set_module_params_pres (mps : Option (List ParamEntry)) :
    ∀ (st st' : MRState), set_module_params st mps = Except.ok st' →
      st'.foreach_iterator = st.foreach_iterator ∧
      st'.foreach_from_file_path = st.foreach_from_file_path := by
  cases mps with
  | none =>
    intro st st' h
    simp only [set_module_params] at h
    injection h with h1
    subst h1
    exact ⟨rfl, rfl⟩
  | some l =>
    induction l with
    | nil =>
      intro st st' h
      simp only [set_module_params, List.foldlM] at h
      injection h with h1
      subst h1
      exact ⟨rfl, rfl⟩
    | cons e t ih =>
      intro st st' h
      simp only [set_module_params, List.foldlM_cons] at h
      obtain ⟨st1, h1, h2⟩ := exceptBind_ok _ _ _ h
      have hrec := ih st1 st' (by simp only [set_module_params]; exact h2)
      have hfields : st1.foreach_iterator = st.foreach_iterator ∧
          st1.foreach_from_file_path = st.foreach_from_file_path := by
        cases e with
        | param p =>
          injection h1 with h4
          subst h4
          exact ⟨rfl, rfl⟩
        | dict d =>
          obtain ⟨p, hp, h3⟩ := exceptBind_ok _ _ _ h1
          injection h3 with h4
          subst h4
          exact ⟨rfl, rfl⟩
      exact ⟨hrec.1.trans hfields.1, hrec.2.trans hfields.2⟩

/-- The inject-if-absent fold never touches the foreach iterator fields. -/
theorem inject_fold_pres :
    ∀ (ps : List TerraformModuleParameter) (x : MRState),
      ((ps.foldl (fun st p => if p.name ∈ st.module_parameter_names then st
        else { st with
          module_parameters := st.module_parameters ++ [p]
          module_parameter_names := st.module_parameter_names ++ [p.name] })
        x).foreach_iterator = x.foreach_iterator) ∧
      ((ps.foldl (fun st p => if p.name ∈ st.module_parameter_names then st
        else { st with
          module_parameters := st.module_parameters ++ [p]
          module_parameter_names := st.module_parameter_names ++ [p.name] })
        x).foreach_from_file_path = x.foreach_from_file_path) := by
  intro ps
  induction ps with
  | nil => intro x; exact ⟨rfl, rfl⟩
  | cons p t ih =>
    intro x
    rw [List.foldl_cons]
    constructor
    · rw [(ih _).1]
      split <;> rfl
    · rw [(ih _).2]
      split <;> rfl

/-- Injecting the three bookkeeping parameters never touches the foreach
iterator fields. -/
theorem set_required_pres (st : MRState) :
    (set_required_module_params st).foreach_iterator = st.foreach_iterator ∧
    (set_required_module_params st).foreach_from_file_path =
      st.foreach_from_file_path := by
  rw [set_required_module_params]
  exact inject_fold_pres requiredInjectedParams st

/-- Docstring-level form: after a successful `get_module_config`, the flag
fields are the last-occurrence accumulation over the parameter lines. -/
theorem get_module_config_iter (st st' : MRState) (ds : String)
    (hds : st.docstring = some ds) (h : get_module_config st = Except.ok st') :
    st'.foreach_iterator =
      lastWins (lineFlagParam "foreach_iterator") (paramLines ds)
        st.foreach_iterator ∧
    st'.foreach_from_file_path =
      lastWins (lineFlagParam "foreach_from_file_path") (paramLines ds)
        st.foreach_from_file_path := by
  simp only [get_module_config, hds] at h
  rw [paramLines]
  cases hl : (pySplitLines ds).filter (fun l => l ≠ "") with
  | nil =>
    simp only [hl] at h
    injection h with h1
    subst h1
    exact ⟨rfl, rfl⟩
  | cons d rest =>
    simp only [hl] at h
    cases rest with
    | nil =>
      simp only [List.isEmpty_nil, if_true, ite_true] at h
      injection h with h1
      subst h1
      exact ⟨rfl, rfl⟩
    | cons l2 rest2 =>
      simp only [List.isEmpty_cons, if_false, ite_false] at h
      obtain ⟨r, hr, h2⟩ := exceptBind_ok _ _ _ h
      have hlines := processParamLines_iter (l2 :: rest2) _ [] r.1 r.2 (by rw [hr])
      have hsmp := set_module_params_pres (some r.2) r.1 st' h2
      simp only [List.drop_succ_cons, List.drop_zero]
      exact ⟨hsmp.1.trans hlines.1, hsmp.2.trans hlines.2⟩

/-- C3 (amended): when several parameter lines of one docstring carry the
`foreach_iterator` flag (respectively `foreach_from_file_path`), the
descriptor's foreach iterator (respectively foreach-from-file parameter) is
the Parameter built from the LAST such line — each occurrence overwrites
the field, so later occurrences win, not the first as the claim states. -/
theorem foreach_flags_last_occurrence_wins (cfg : DefaultsCfg) (mn : String)
    (ds : String) (mt : Option String) (mp0 : Option (List ParamEntry))
    (md mc nd bn : Option String) (st' : MRState)
    (h : initResources cfg mn (some ds) mt mp0 md mc nd bn = Except.ok st') :
    st'.foreach_iterator =
      lastWins (lineFlagParam "foreach_iterator") (paramLines ds) Option.none ∧
    st'.foreach_from_file_path =
      lastWins (lineFlagParam "foreach_from_file_path") (paramLines ds)
        Option.none := by
  simp only [initResources] at h
  obtain ⟨st1, h1, h⟩ := exceptBind_ok _ _ _ h
  obtain ⟨st2, h2, h⟩ := exceptBind_ok _ _ _ h
  injection h with h3
  subst h3
  have hcfg := get_module_config_iter _ st1 ds rfl h1
  have hsmp := set_module_params_pres mp0 st1 st2 h2
  have hreq := set_required_pres st2
  constructor
  · rw [hreq.1, hsmp.1, hcfg.1]
  · rw [hreq.2, hsmp.2, hcfg.2]

/-- C3 counterexample: a docstring with two `foreach_iterator`-flagged
parameter lines (`a` first, `b` second) yields a descriptor whose foreach
iterator is the parameter named `b` — the parameter of the second line, not
the first; the claim's "first occurrence wins" fails on the code. -/
theorem foreach_iterator_last_wins_cex :
    (lineFlagParam "foreach_iterator" "name:a,foreach_iterator:true").map
      (fun p => p.name) = some "a" ∧
    (lineFlagParam "foreach_iterator" "name:b,foreach_iterator:true").map
      (fun p => p.name) = some "b" ∧
    (okOf (initResources cfgDemo "m"
      (some "Desc\nname:a,foreach_iterator:true\nname:b,foreach_iterator:true")
      Option.none Option.none Option.none Option.none Option.none Option.none)).map
      (fun st => st.foreach_iterator.map (fun p => p.name)) = some (some "b") ∧
    ("b" : String) ≠ "a" :=
  ⟨rfl, rfl, rfl, by decide⟩

/-- C3 witness: the amended statement applied to the concrete two-flagged
docstring. -/
theorem foreach_flags_last_occurrence_wins_witness :
    (initResources cfgDemo "m"
      (some "Desc\nname:a,foreach_iterator:true\nname:b,foreach_iterator:true")
      Option.none Option.none Option.none Option.none Option.none
      Option.none).map (fun st => st.foreach_iterator) =
    Except.ok (lastWins (lineFlagParam "foreach_iterator")
      (paramLines "Desc\nname:a,foreach_iterator:true\nname:b,foreach_iterator:true")
      Option.none) := by
  cases hEq : initResources cfgDemo "m"
      (some "Desc\nname:a,foreach_iterator:true\nname:b,foreach_iterator:true")
      Option.none Option.none Option.none Option.none Option.none Option.none with
  | error e => exact Except.noConfusion hEq
  | ok stf =>
    simp only [Except.map]
    exact congrArg Except.ok
      (foreach_flags_last_occurrence_wins cfgDemo "m"
        "Desc\nname:a,foreach_iterator:true\nname:b,foreach_iterator:true"
        Option.none Option.none Option.none Option.none Option.none Option.none
        stf hEq).1
